import Mathlib

/-!
# Verification of the notion-server tool gateway (src/index.ts)

A shallow embedding of the single source file of the repository: the error
normalizer `formatError`, the document renderer inside `read_page`, the search
summarizer inside `search_pages`, the four tool handlers, and the call-dispatch
of the `CallToolRequestSchema` handler.

Conventions of the embedding:
* JavaScript string-or-undefined values are `Option String`; JS truthiness
  (`undefined` and `""` are falsy) is `jsTruthy`.
* A thrown JS exception is the `Except.error` branch; `async` plays no role
  beyond ordering, which is made explicit.
* Machine numbers in this program are small integers (HTTP statuses, lengths),
  embedded as `Int`/`Nat`; no arithmetic overflow is reachable.
* The source file's literal strings are reproduced byte-for-byte as the file
  decodes under UTF-8; the bullet and the child-page/child-database prefixes
  are the three/four-character mojibake sequences that the file actually
  contains (see `bulletMarker` below), built from explicit code points so the
  intent is unambiguous.
-/

namespace NotionServer

/-! ## JS-style primitives -/

/-- JS truthiness of a string-or-undefined value: `undefined` and `""` are falsy. -/
def jsTruthy : Option String → Bool
  | none => false
  | some s => !(s == "")

/-- JS `a || b` on string-or-undefined values. -/
def jsOrStr (a b : Option String) : Option String :=
  if jsTruthy a then a else b

/-- JS `o || d` for a string against a string default (`x.title || "Untitled Page"`). -/
def jsOrDefault (o : Option String) (d : String) : String :=
  match o with
  | some s => if s = "" then d else s
  | none => d

/-- Template-literal interpolation of a string-or-undefined: JS renders
`undefined` as the text "undefined". -/
def interpStr : Option String → String
  | none => "undefined"
  | some s => s

/-! ## The error normalizer `formatError` (index.ts lines 83-99)

The classification reads four places of the failure object: `error.status`,
`error.code`, `error.body?.message` and `error.message`.  `ErrVal` records
exactly those: a missing or non-number `status` is `none`, a missing or
non-string `code`/message is `none`. -/

/-- The fields of a failure object that `formatError`'s classification reads. -/
structure ErrVal where
  status : Option Int
  code : Option String
  bodyMessage : Option String
  message : Option String
deriving Repr, DecidableEq

/-- The detail text `${error.body?.message || error.message}` interpolated into
the 404/401/400 and coded messages. -/
def detailsOf (e : ErrVal) : String :=
  interpStr (jsOrStr e.bodyMessage e.message)

/-- The classification part of `formatError` (everything after the
`console.error` diagnostic line): status 404, then 401, then 400, then a truthy
`code`, then the message fallback chain. -/
def formatErrorBody (e : ErrVal) : String :=
  if e.status = some 404 then
    "Resource not found. Please check the provided ID. Details: " ++ detailsOf e
  else if e.status = some 401 then
    "Authentication error. Please check your API token. Details: " ++ detailsOf e
  else if e.status = some 400 then
    "Bad request. Details: " ++ detailsOf e
  else if jsTruthy e.code then
    "API Error (" ++ interpStr e.code ++ "): " ++ detailsOf e
  else
    (jsOrStr e.bodyMessage (jsOrStr e.message (some "An unknown error occurred"))).getD ""

/-! ## JSON values and `JSON.stringify(v, null, 2)`

`query_database` and `retrieve_database` serialize the remote response with a
two-space indent; `Json` embeds the (acyclic) JSON value a remote response
denotes and `jsonStringify2` its serialization.  String escaping covers the
characters these claims can reach (quote, backslash, and the common control
characters). -/

inductive Json where
  | null : Json
  | bool : Bool → Json
  | num : Int → Json
  | str : String → Json
  | arr : List Json → Json
  | obj : List (String × Json) → Json
deriving Repr

def jsonEscapeChar (c : Char) : String :=
  if c = '"' then "\\\""
  else if c = '\\' then "\\\\"
  else if c = '\n' then "\\n"
  else if c = '\t' then "\\t"
  else if c = '\r' then "\\r"
  else String.mk [c]

def jsonQuote (s : String) : String :=
  "\"" ++ String.join (s.toList.map jsonEscapeChar) ++ "\""

mutual

/-- `JSON.stringify(v, null, 2)` with `ind` the indentation accumulated so far. -/
def jsonStringify2 (ind : String) : Json → String
  | .null => "null"
  | .bool b => if b then "true" else "false"
  | .num n => toString n
  | .str s => jsonQuote s
  | .arr [] => "[]"
  | .arr (x :: xs) =>
    "[\n" ++ String.intercalate ",\n" (jsonStringifyItems (ind ++ "  ") (x :: xs))
      ++ "\n" ++ ind ++ "]"
  | .obj [] => "\x7b\x7d"
  | .obj (f :: fs) =>
    "\x7b\n" ++ String.intercalate ",\n" (jsonStringifyFields (ind ++ "  ") (f :: fs))
      ++ "\n" ++ ind ++ "\x7d"

def jsonStringifyItems (ind : String) : List Json → List String
  | [] => []
  | x :: xs => (ind ++ jsonStringify2 ind x) :: jsonStringifyItems ind xs

def jsonStringifyFields (ind : String) : List (String × Json) → List String
  | [] => []
  | (k, v) :: fs => (ind ++ jsonQuote k ++ ": " ++ jsonStringify2 ind v)
      :: jsonStringifyFields ind fs

end

/-! ## A heap model of JS objects, for the diagnostic `JSON.stringify` call

`formatError` begins with `console.error('Full error:', JSON.stringify(error,
null, 2))`.  `JSON.stringify` throws a `TypeError` on a circular structure, so
the failure object must be modelled with sharing: `JHeap` is a store of
objects (field lists), `JVal.vref i` a reference into it.  `stringifyJVal`
performs the serialization with the path-based cycle check `JSON.stringify`
uses (an object may appear twice as a sibling, but not as its own ancestor);
the `fuel` argument is a modelling artifact only — with `fuel = h.length + 1`
a path longer than the heap must revisit an ancestor, so the cycle check fires
before the fuel can run out.  The serialized text is discarded (it goes to the
diagnostic channel), so its exact spacing is irrelevant; only whether the
serialization throws matters. -/

inductive JVal where
  | vstr : String → JVal
  | vnum : Int → JVal
  | vbool : Bool → JVal
  | vnull : JVal
  | vref : Nat → JVal
deriving Repr, DecidableEq

abbrev JHeap := List (List (String × JVal))

def heapFields (h : JHeap) (i : Nat) : Option (List (String × JVal)) := h.get? i

/-- Serialize an object's field list with the given serializer for the values. -/
def stringifyFieldsWith (f : JVal → Except Unit String) :
    List (String × JVal) → Except Unit (List String)
  | [] => .ok []
  | (k, v) :: fs => do
    let s ← f v
    let rest ← stringifyFieldsWith f fs
    pure ((jsonQuote k ++ ":" ++ s) :: rest)

def stringifyJVal (h : JHeap) : Nat → List Nat → JVal → Except Unit String
  | _, _, .vstr s => .ok (jsonQuote s)
  | _, _, .vnum n => .ok (toString n)
  | _, _, .vbool b => .ok (if b then "true" else "false")
  | _, _, .vnull => .ok "null"
  | 0, _, .vref _ => .error ()
  | fuel + 1, seen, .vref i =>
    if seen.contains i then .error ()
    else
      match heapFields h i with
      | none => .error ()
      | some fields =>
        (stringifyFieldsWith (fun v => stringifyJVal h fuel (i :: seen) v) fields).map
          (fun parts => "\x7b" ++ String.intercalate "," parts ++ "\x7d")

/-- Field access `v.k` when `v` is an object reference. -/
def getFieldJ (h : JHeap) (v : JVal) (k : String) : Option JVal :=
  match v with
  | .vref i => (heapFields h i).bind (fun fs => (fs.find? (fun kv => kv.1 == k)).map (fun kv => kv.2))
  | _ => none

/-- The four places `formatError`'s classification reads, extracted from a
heap-allocated failure object: a non-number `status` and a non-string
`code`/`message` read as absent. -/
def errValOf (h : JHeap) (v : JVal) : ErrVal where
  status := match getFieldJ h v "status" with | some (.vnum n) => some n | _ => none
  code := match getFieldJ h v "code" with | some (.vstr s) => some s | _ => none
  bodyMessage := match (getFieldJ h v "body").bind (fun b => getFieldJ h b "message") with
    | some (.vstr s) => some s | _ => none
  message := match getFieldJ h v "message" with | some (.vstr s) => some s | _ => none

/-- `formatError` as the source orders it: first the diagnostic
`console.error('Full error:', JSON.stringify(error, null, 2))` — whose argument
evaluation throws on a circular structure, aborting the call — then the
classification of `formatErrorBody`. -/
def formatErrorJs (h : JHeap) (v : JVal) : Except Unit String :=
  (stringifyJVal h (h.length + 1) [] v).map (fun _ => formatErrorBody (errValOf h v))

/-! ## The uniform response envelope -/

/-- One `{type: "text", text: string}` content segment. -/
structure ContentItem where
  type : String
  text : String
deriving Repr, DecidableEq

/-- `{content: [...]}`, the sole return shape of every tool handler. -/
structure Envelope where
  content : List ContentItem
deriving Repr, DecidableEq

def mkTextEnvelope (s : String) : Envelope := ⟨[⟨"text", s⟩]⟩

/-! ## The source file's literal markers

The source file's UTF-8 bytes spell a three-character mojibake sequence where a
bullet was intended (bytes C3 A2, E2 82 AC, C2 A2 = U+00E2 U+20AC U+00A2), and
four-character sequences for the child-page and child-database prefixes.  These
are the literal characters the program emits; they are built from explicit code
points here so the embedding is unambiguous about them. -/

/-- The bullet literal of the source (lines 212 and 271): U+00E2 U+20AC U+00A2. -/
def bulletMarker : String := String.mk [Char.ofNat 0xE2, Char.ofNat 0x20AC, Char.ofNat 0xA2]

/-- The child-page prefix literal (line 250): U+00F0 U+0178 U+201C U+201E. -/
def childPageMarker : String :=
  String.mk [Char.ofNat 0xF0, Char.ofNat 0x178, Char.ofNat 0x201C, Char.ofNat 0x201E]

/-- The child-database prefix literal (line 255): U+00F0 U+0178 U+201C U+0160. -/
def childDbMarker : String :=
  String.mk [Char.ofNat 0xF0, Char.ofNat 0x178, Char.ofNat 0x201C, Char.ofNat 0x160]

/-! ## Pages and properties -/

/-- One rich-text run; the code reads only `plain_text`. -/
structure TextRun where
  plain_text : String
deriving Repr, DecidableEq

/-- A property value as the code reads it: its `type` discriminant and its
`title` field (an array of runs when present, `none` when the property carries
no such field). -/
structure PropVal where
  type : String
  title : Option (List TextRun)
deriving Repr, DecidableEq

/-- A matched page as `search_pages` consumes it: a `url` and a `properties`
record (insertion-ordered key/value list). -/
structure NotionPage where
  url : String
  properties : List (String × PropVal)
deriving Repr, DecidableEq

def lookupProp (ps : List (String × PropVal)) (k : String) : Option PropVal :=
  (ps.find? (fun kv => kv.1 == k)).map (fun kv => kv.2)

/-! ## `decodeURIComponent`

`decodeURIComponent` replaces each maximal run of consecutive `%XX` escapes by
the strict UTF-8 decoding of its bytes and throws a `URIError` on a dangling
or non-hex escape or on bytes that are not valid UTF-8.  `none` is the thrown
`URIError`. -/

def hexDigit (c : Char) : Option Nat :=
  if '0' ≤ c ∧ c ≤ '9' then some (c.toNat - '0'.toNat)
  else if 'a' ≤ c ∧ c ≤ 'f' then some (c.toNat - 'a'.toNat + 10)
  else if 'A' ≤ c ∧ c ≤ 'F' then some (c.toNat - 'A'.toNat + 10)
  else none

def contByte (b : Nat) : Bool := decide (0x80 ≤ b ∧ b ≤ 0xBF)

/-- Strict UTF-8 decoding of a byte list (overlong encodings, surrogates and
out-of-range lead bytes rejected). -/
def utf8Decode : List Nat → Option (List Char)
  | [] => some []
  | b :: rest =>
    if b ≤ 0x7F then
      (utf8Decode rest).map (fun cs => Char.ofNat b :: cs)
    else if 0xC2 ≤ b ∧ b ≤ 0xDF then
      match rest with
      | b2 :: rest2 =>
        if contByte b2 then
          (utf8Decode rest2).map (fun cs =>
            Char.ofNat ((b - 0xC0) * 0x40 + (b2 - 0x80)) :: cs)
        else none
      | [] => none
    else if 0xE0 ≤ b ∧ b ≤ 0xEF then
      match rest with
      | b2 :: b3 :: rest3 =>
        if contByte b2 ∧ contByte b3 ∧ (b ≠ 0xE0 ∨ 0xA0 ≤ b2) ∧ (b ≠ 0xED ∨ b2 ≤ 0x9F) then
          (utf8Decode rest3).map (fun cs =>
            Char.ofNat ((b - 0xE0) * 0x1000 + (b2 - 0x80) * 0x40 + (b3 - 0x80)) :: cs)
        else none
      | _ => none
    else if 0xF0 ≤ b ∧ b ≤ 0xF4 then
      match rest with
      | b2 :: b3 :: b4 :: rest4 =>
        if contByte b2 ∧ contByte b3 ∧ contByte b4
            ∧ (b ≠ 0xF0 ∨ 0x90 ≤ b2) ∧ (b ≠ 0xF4 ∨ b2 ≤ 0x8F) then
          (utf8Decode rest4).map (fun cs =>
            Char.ofNat ((b - 0xF0) * 0x40000 + (b2 - 0x80) * 0x1000
              + (b3 - 0x80) * 0x40 + (b4 - 0x80)) :: cs)
        else none
      | _ => none
    else none

/-- Split the input into raw characters and `%XX` escape bytes; a `%` not
followed by two hex digits is a `URIError`. -/
def tokenizePct : List Char → Option (List (Sum Char Nat))
  | [] => some []
  | '%' :: c1 :: c2 :: rest =>
    match hexDigit c1, hexDigit c2 with
    | some h1, some h2 => (tokenizePct rest).map (fun ts => Sum.inr (h1 * 16 + h2) :: ts)
    | _, _ => none
  | '%' :: _ => none
  | c :: rest => (tokenizePct rest).map (fun ts => Sum.inl c :: ts)

/-- Decode each maximal run of escape bytes as UTF-8; `pend` holds the reversed
bytes of the run being collected. -/
def regroupPct : List (Sum Char Nat) → List Nat → Option (List Char)
  | [], pend => utf8Decode pend.reverse
  | Sum.inr b :: ts, pend => regroupPct ts (b :: pend)
  | Sum.inl c :: ts, pend => do
    let flushed ← utf8Decode pend.reverse
    let rest ← regroupPct ts []
    pure (flushed ++ c :: rest)

def decodeURIComponentJs (s : String) : Option String := do
  let ts ← tokenizePct s.toList
  let cs ← regroupPct ts []
  pure (String.mk cs)

/-! ## The slug regex of `search_pages`

`page.url.match(/\/([^\/]+)-[^\/]+$/)`: both character classes exclude `/` and
the pattern is anchored at the end, so only the last path segment can match;
the greedy first group then ends at the last `-` of that segment that leaves a
nonempty remainder on both sides. -/

/-- The characters after the last `/` of the url, when the url contains one. -/
def lastSegment (cs : List Char) : Option (List Char) :=
  if cs.contains '/' then some ((cs.reverse.takeWhile (fun c => c != '/')).reverse) else none

/-- The capture group of the slug regex: `none` when the regex does not match. -/
def slugMatch (url : String) : Option (List Char) :=
  match lastSegment url.toList with
  | none => none
  | some seg =>
    let n := seg.length
    match ((List.range n).filter
        (fun i => decide (1 ≤ i) && decide (i + 2 ≤ n) && (seg.get? i == some '-'))).getLast? with
    | none => none
    | some i => some (seg.take i)

/-- Outcome of the url-slug stage: the regex can fail to match, the decode can
throw (caught by the handler's per-page `try`, which then skips the property
stage), or a decoded string is produced. -/
inductive SlugOutcome where
  | noMatch : SlugOutcome
  | threw : SlugOutcome
  | decoded : String → SlugOutcome
deriving Repr, DecidableEq

def dashToSpace (cs : List Char) : List Char := cs.map (fun c => if c = '-' then ' ' else c)

/-- Stage (a) of the title heuristic: `decodeURIComponent` applied to the
capture group with every dash replaced by a space. -/
def stageA (url : String) : SlugOutcome :=
  match slugMatch url with
  | none => .noMatch
  | some g =>
    match decodeURIComponentJs (String.mk (dashToSpace g)) with
    | none => .threw
    | some s => .decoded s

/-- Stage (b) of the title heuristic: `page.properties.title ||
page.properties.Name`, then `titleProperty?.title?.[0]?.plain_text` must be
truthy (nonempty) for the assignment to happen. -/
def stageBTitle (ps : List (String × PropVal)) : Option String :=
  let tp := match lookupProp ps "title" with
    | some p => some p
    | none => lookupProp ps "Name"
  match tp with
  | some p =>
    match p.title with
    | some (r :: _) => if r.plain_text = "" then none else some r.plain_text
    | _ => none
  | none => none

/-- The per-page display title of the search summarizer (lines 194-210):
`title` starts as "Untitled"; the url stage may overwrite it; the property
stage runs only when `title` is still exactly "Untitled" after the url stage,
and is skipped entirely when the decode threw (the exception jumps to the
per-page `catch`). -/
def pageTitle (p : NotionPage) : String :=
  match stageA p.url with
  | .threw => "Untitled"
  | .decoded s => if s = "Untitled" then (stageBTitle p.properties).getD "Untitled" else s
  | .noMatch => (stageBTitle p.properties).getD "Untitled"

/-- One search result line: `` `${bullet} ${title}\n  Link: ${page.url}` ``. -/
def formatPageLine (p : NotionPage) : String :=
  bulletMarker ++ " " ++ pageTitle p ++ "\n  Link: " ++ p.url

/-- The zero-match message of `search_pages`. -/
def noResultsMsg (q : String) : String :=
  "No pages found matching \"" ++ q ++ "\""

/-- The nonempty-match summary of `search_pages`. -/
def searchSummary (q : String) (pages : List NotionPage) : String :=
  "Found " ++ toString pages.length ++ " pages matching \"" ++ q ++ "\":\n\n"
    ++ String.intercalate "\n\n" (pages.map formatPageLine)

/-! ## Blocks and the `read_page` renderer (lines 226-311) -/

/-- The object stored under the block's discriminant key (`block[block.type]`,
also `block.to_do`, `block.child_page`, `block.child_database` — in each branch
the code reads that object only when the discriminant names it), restricted to
the three fields the code reads.  `none` models an absent payload object. -/
structure BlockPayload where
  rich_text : Option (List TextRun)
  checked : Option Bool
  title : Option String
deriving Repr, DecidableEq

/-- One block of the listing response: its `id`, its `type` discriminant, and
the payload object stored under the discriminant key. -/
structure Block where
  id : String
  type : String
  payload : Option BlockPayload
deriving Repr, DecidableEq

/-- `block.id` with every dash removed. -/
def stripDashes (s : String) : String := String.mk (s.toList.filter (fun c => c != '-'))

/-- The generic rich-text extraction done for every non-child block:
`block[type]?.rich_text?.map(t => t.plain_text).join("") || ""`. -/
def blockText (b : Block) : String :=
  match b.payload with
  | some p =>
    match p.rich_text with
    | some rs => String.join (rs.map (fun r => r.plain_text))
    | none => ""
  | none => ""

def checkedTruthy (b : Block) : Bool :=
  match b.payload with
  | some p => p.checked.getD false
  | none => false

/-- The `switch` on the block discriminant (lines 262-282). -/
def formatBlock (b : Block) : String :=
  let t := blockText b
  if b.type = "paragraph" ∨ b.type = "heading_1" ∨ b.type = "heading_2"
      ∨ b.type = "heading_3" then t
  else if b.type = "bulleted_list_item" ∨ b.type = "numbered_list_item" then
    bulletMarker ++ " " ++ t
  else if b.type = "to_do" then
    (if checkedTruthy b then "[x]" else "[ ]") ++ " " ++ t
  else if b.type = "code" then "```\n" ++ t ++ "\n```"
  else t

/-- The block loop (lines 246-287), producing `(childPages, childDatabases,
contentBlocks)` in push order.  A `child_page`/`child_database` block whose
payload object is absent throws a `TypeError` (the code dereferences
`block.child_page.title` without optional chaining); any other block's
contribution is its formatted string, pushed only when truthy (nonempty). -/
def processBlocks : List Block → Except Unit (List String × List String × List String)
  | [] => .ok ([], [], [])
  | b :: bs =>
    if b.type = "child_page" then
      match b.payload with
      | none => .error ()
      | some p =>
        (processBlocks bs).map (fun r =>
          ((childPageMarker ++ " " ++ jsOrDefault p.title "Untitled Page"
            ++ " (ID: " ++ stripDashes b.id ++ ")") :: r.1, r.2.1, r.2.2))
    else if b.type = "child_database" then
      match b.payload with
      | none => .error ()
      | some p =>
        (processBlocks bs).map (fun r =>
          (r.1, (childDbMarker ++ " " ++ jsOrDefault p.title "Untitled Database"
            ++ " (ID: " ++ stripDashes b.id ++ ")") :: r.2.1, r.2.2))
    else
      let fc := formatBlock b
      (processBlocks bs).map (fun r =>
        (r.1, r.2.1, if fc = "" then r.2.2 else fc :: r.2.2))

/-- The page-retrieve response before the zod `notionPage` parse: `z.string()`
for `id` and `url`, `z.record` for `properties`; each property value is matched
against `z.union([titleShape, z.any()])`, and `z.any()` accepts everything, so
the parse succeeds exactly when the three top-level fields are present with the
right primitive shape. -/
structure PageResp where
  id : Option String
  url : Option String
  props : Option (List (String × PropVal))
deriving Repr, DecidableEq

def parseNotionPage (r : PageResp) : Except Unit (List (String × PropVal)) :=
  match r.id, r.url, r.props with
  | some _, some _, some ps => .ok ps
  | _, _, _ => .error ()

/-- The title resolution of `read_page` (lines 238-239):
`Object.values(properties).find(prop => prop.type === "title")`, then
`titleProp.title[0]?.plain_text || "Untitled"`.  The found property's `title`
field is dereferenced without optional chaining, so a title-typed property
without a `title` array throws. -/
def readPageTitle (ps : List (String × PropVal)) : Except Unit String :=
  match ps.find? (fun kv => kv.2.type == "title") with
  | none => .ok "Untitled"
  | some kv =>
    match kv.2.title with
    | none => .error ()
    | some [] => .ok "Untitled"
    | some (r :: _) => .ok (jsOrDefault (some r.plain_text) "Untitled")

/-- JS `String.prototype.trim()`: strip leading and trailing whitespace (the
whitespace reachable in this program is ASCII space and newline). -/
def trimStr (s : String) : String :=
  String.mk (((s.toList.dropWhile Char.isWhitespace).reverse.dropWhile
    Char.isWhitespace).reverse)

/-- The assembly (lines 290-308): heading, content lines, child-page section,
child-database section, each appended only when nonempty, then `trim()`. -/
def assemblePage (title : String) (childPages childDbs content : List String) : String :=
  let o := "# " ++ title ++ "\n\n"
  let o := if content.isEmpty then o else o ++ String.intercalate "\n" content ++ "\n\n"
  let o := if childPages.isEmpty then o
    else o ++ "## Child Pages\n" ++ String.intercalate "\n" childPages ++ "\n\n"
  let o := if childDbs.isEmpty then o
    else o ++ "## Child Databases\n" ++ String.intercalate "\n" childDbs ++ "\n"
  trimStr o

/-! ## Arguments, validation, and the four handlers

An argument object is a key/value list; values are strings or other JSON
values.  `parseStringArg` is `z.object` with one required `z.string()` field:
extra fields are ignored, a missing field or a non-string value throws a
`ZodError`.  A handler's result is the pair of its outcome (`Except.error` =
an exception escaping the handler, to be seen by the transport) and the number
of remote Notion calls it issued. -/

inductive ArgVal where
  | s : String → ArgVal
  | obj : Json → ArgVal

abbrev JsObj := List (String × ArgVal)

def lookupArg (o : JsObj) (k : String) : Option ArgVal :=
  (o.find? (fun kv => kv.1 == k)).map (fun kv => kv.2)

def parseStringArg (o : JsObj) (k : String) : Except String String :=
  match lookupArg o k with
  | some (.s v) => .ok v
  | some (.obj _) => .error ("ZodError: expected string at " ++ k)
  | none => .error ("ZodError: required " ++ k)

/-- JS truthiness of an argument value (`sort ? [sort] : undefined`). -/
def argTruthy : Option ArgVal → Bool
  | none => false
  | some (.s v) => v != ""
  | some (.obj _) => true

/-- An exception escaping a handler to the transport layer. -/
inductive Thrown where
  | validation : String → Thrown
  | remote : ErrVal → Thrown
  | jsError : String → Thrown
deriving Repr

/-- The failure object a `ZodError` presents to `formatError`: no `status`, no
`code`, no `body`, only a `message` (modelled text; only its role matters). -/
def zodPageErr : ErrVal := ⟨none, none, none, some "ZodError: invalid page shape"⟩

/-- The failure object a rendering `TypeError` presents to `formatError`. -/
def typeErrVal : ErrVal :=
  ⟨none, none, none, some "TypeError: cannot read properties of undefined"⟩

/-- `toolHandlers.search_pages` (lines 171-224).  The zod parse runs first; the
`notion.search` call is NOT inside any try/catch — the only `try` in this
handler is the per-page title extraction, which `pageTitle` already absorbs —
so a rejected search propagates out of the handler. -/
def search_pages (search : String → Except ErrVal (List NotionPage)) (args : JsObj) :
    Except Thrown Envelope × Nat :=
  match parseStringArg args "query" with
  | .error m => (.error (.validation m), 0)
  | .ok query =>
    match search query with
    | .error e => (.error (.remote e), 1)
    | .ok results =>
      if results.isEmpty then (.ok (mkTextEnvelope (noResultsMsg query)), 1)
      else (.ok (mkTextEnvelope (searchSummary query results)), 1)

/-- `toolHandlers.read_page` (lines 226-323).  After validation the handler
issues both remote calls under `Promise.all` (so both count even when one
rejects; a joint rejection surfaces the block-listing one first), parses the
page, renders, and catches every exception of that `try` into a
`formatError` envelope. -/
def read_page (listBlocks : String → Except ErrVal (List Block))
    (retrievePage : String → Except ErrVal PageResp) (args : JsObj) :
    Except Thrown Envelope × Nat :=
  match parseStringArg args "pageId" with
  | .error m => (.error (.validation m), 0)
  | .ok pageId =>
    let body : Except ErrVal String := do
      let blocks ← listBlocks pageId
      let resp ← retrievePage pageId
      let ps ← (parseNotionPage resp).mapError (fun _ => zodPageErr)
      let title ← (readPageTitle ps).mapError (fun _ => typeErrVal)
      let r ← (processBlocks blocks).mapError (fun _ => typeErrVal)
      pure (assemblePage title r.1 r.2.1 r.2.2)
    match body with
    | .ok out => (.ok (mkTextEnvelope out), 2)
    | .error e => (.ok (mkTextEnvelope (formatErrorBody e)), 2)

/-- `toolHandlers.query_database` (lines 324-353).  No validation at all: the
arguments are destructured as-is (`args as any`) and the remote call is always
issued; its rejection is caught and prefixed. -/
def query_database
    (queryDb : Option ArgVal → Option ArgVal → Option (List ArgVal) → Except ErrVal Json)
    (args : JsObj) : Except Thrown Envelope × Nat :=
  let databaseId := lookupArg args "databaseId"
  let filter := lookupArg args "filter"
  let sort := lookupArg args "sort"
  let sorts := if argTruthy sort then sort.map (fun v => [v]) else none
  match queryDb databaseId filter sorts with
  | .error e => (.ok (mkTextEnvelope ("Error querying database: " ++ formatErrorBody e)), 1)
  | .ok results => (.ok (mkTextEnvelope (jsonStringify2 "" results)), 1)

/-- `toolHandlers.retrieve_database` (lines 354-381).  Also unvalidated; the
remote rejection is caught and formatted without a prefix. -/
def retrieve_database (retrieveDb : Option ArgVal → Except ErrVal Json) (args : JsObj) :
    Except Thrown Envelope × Nat :=
  match retrieveDb (lookupArg args "databaseId") with
  | .error e => (.ok (mkTextEnvelope (formatErrorBody e)), 1)
  | .ok resp => (.ok (mkTextEnvelope (jsonStringify2 "" resp)), 1)

/-- The remote Notion collaborator, one function per API call the handlers use. -/
structure Remotes where
  search : String → Except ErrVal (List NotionPage)
  listBlocks : String → Except ErrVal (List Block)
  retrievePage : String → Except ErrVal PageResp
  queryDb : Option ArgVal → Option ArgVal → Option (List ArgVal) → Except ErrVal Json
  retrieveDb : Option ArgVal → Except ErrVal Json

/-- The `CallToolRequestSchema` handler (lines 403-417): dispatch by name; an
unknown name throws `Unknown tool: <name>`; the outer catch only logs and
rethrows, so a handler's exception reaches the transport unchanged. -/
def callTool (R : Remotes) (name : String) (args : JsObj) : Except Thrown Envelope × Nat :=
  if name = "search_pages" then search_pages R.search args
  else if name = "read_page" then read_page R.listBlocks R.retrievePage args
  else if name = "query_database" then query_database R.queryDb args
  else if name = "retrieve_database" then retrieve_database R.retrieveDb args
  else (.error (.jsError ("Unknown tool: " ++ name)), 0)

/-! ## Auxiliary notions used by the claim statements -/

/-- `pat` occurs as a contiguous segment of the list. -/
def segOccurs (pat : List Char) : List Char → Bool
  | [] => pat.isEmpty
  | c :: t => pat.isPrefixOf (c :: t) || segOccurs pat t

/-- `pat` occurs as a substring of `s`. -/
def containsStr (s pat : String) : Bool := segOccurs pat.toList s.toList

/-- `s` contains none of the characters in `bad`. -/
def avoidsChars (bad : List Char) (s : String) : Bool :=
  s.toList.all (fun c => !(bad.contains c))

/-- A remote collaborator stub used by concrete instantiations. -/
def stubRemotes : Remotes :=
  ⟨fun _ => .ok [], fun _ => .ok [],
   fun _ => .ok ⟨some "id", some "url", some []⟩,
   fun _ _ _ => .ok (Json.obj []), fun _ => .ok (Json.obj [])⟩

/-- Modelled from the spec: the two-stage title fallback exactly as claim C5
words it — stage (b), "take the first text run of a title-typed or
conventionally named (\"Name\") property" — for comparison against the code's
`stageBTitle`/`pageTitle`. -/
def claimStageB (p : NotionPage) : String :=
  let tp := match p.properties.find? (fun kv => kv.2.type == "title") with
    | some kv => some kv.2
    | none => lookupProp p.properties "Name"
  match tp with
  | some prop =>
    match prop.title with
    | some (r :: _) => r.plain_text
    | _ => "Untitled"
  | none => "Untitled"

/-- Modelled from the spec: claim C5's overall two-stage fallback — whenever
stage (a) "yields no usable title" (no regex match, a failed decode, or the
placeholder itself), stage (b) runs. -/
def claimTitleC5 (p : NotionPage) : String :=
  match stageA p.url with
  | .decoded s => if s = "Untitled" then claimStageB p else s
  | _ => claimStageB p

/-! ### Small lemmas about the auxiliary notions -/

theorem strToList_append (s t : String) : (s ++ t).toList = s.toList ++ t.toList := by
  cases s; cases t; rfl

theorem isPrefixOf_append_self (pat rest : List Char) :
    pat.isPrefixOf (pat ++ rest) = true := by
  induction pat with
  | nil => simp [List.isPrefixOf]
  | cons c t ih => simp [List.isPrefixOf, ih]

theorem segOccurs_nil (l : List Char) : segOccurs [] l = true := by
  cases l with
  | nil => rfl
  | cons c t => simp [segOccurs, List.isPrefixOf]

theorem segOccurs_sandwich (pat l1 l2 : List Char) :
    segOccurs pat (l1 ++ pat ++ l2) = true := by
  induction l1 with
  | nil =>
    cases pat with
    | nil => simpa using segOccurs_nil l2
    | cons c t =>
      have h := isPrefixOf_append_self (c :: t) l2
      simp only [List.nil_append, List.cons_append, segOccurs] at *
      simp [h]
  | cons a l1' ih =>
    simp only [List.cons_append, segOccurs, List.append_assoc] at *
    simp [ih]

theorem avoidsChars_append (bad : List Char) (s t : String) :
    avoidsChars bad (s ++ t) = (avoidsChars bad s && avoidsChars bad t) := by
  simp [avoidsChars, strToList_append, List.all_append]

/-- `v` is an object reference (the only values `JSON.stringify` recurses into). -/
def isRefJ : JVal → Bool
  | .vref _ => true
  | _ => false

theorem stringifyJVal_scalar (h : JHeap) (fuel : Nat) (seen : List Nat) (v : JVal)
    (hv : isRefJ v = false) : ∃ s, stringifyJVal h fuel seen v = .ok s := by
  cases v with
  | vstr s => exact ⟨jsonQuote s, by cases fuel <;> simp [stringifyJVal]⟩
  | vnum n => exact ⟨toString n, by cases fuel <;> simp [stringifyJVal]⟩
  | vbool b => exact ⟨if b then "true" else "false", by cases fuel <;> simp [stringifyJVal]⟩
  | vnull => exact ⟨"null", by cases fuel <;> simp [stringifyJVal]⟩
  | vref i => simp [isRefJ] at hv

theorem stringifyFieldsWith_ok (f : JVal → Except Unit String)
    (fs : List (String × JVal)) (hfs : ∀ kv ∈ fs, ∃ s, f kv.2 = .ok s) :
    ∃ parts, stringifyFieldsWith f fs = .ok parts := by
  induction fs with
  | nil => exact ⟨[], rfl⟩
  | cons kv rest ih =>
    obtain ⟨k, v⟩ := kv
    obtain ⟨s, hs⟩ := hfs (k, v) (by simp)
    obtain ⟨parts, hp⟩ := ih (fun x hx => hfs x (by simp [hx]))
    exact ⟨(jsonQuote k ++ ":" ++ s) :: parts,
      by simp [stringifyFieldsWith, hs, hp, Except.bind, Except.pure, bind, pure]⟩

/-! ## The claims -/

/-- C3 (confirmed): `read_page` on a page titled "Notes" whose block list is
one paragraph "Hello" followed by one unchecked to-do "Buy milk" returns the
single-text envelope whose text is exactly `# Notes\n\nHello\n[ ] Buy milk`
(and issues its two remote calls). -/
theorem C3_read_page_notes_scenario :
    read_page
      (fun _ => .ok
        [⟨"b1", "paragraph", some ⟨some [⟨"Hello"⟩], none, none⟩⟩,
         ⟨"b2", "to_do", some ⟨some [⟨"Buy milk"⟩], some false, none⟩⟩])
      (fun _ => .ok ⟨some "p1", some "https://www.notion.so/Notes-p1",
        some [("title", ⟨"title", some [⟨"Notes"⟩]⟩)]⟩)
      [("pageId", ArgVal.s "p1")]
      = (.ok (mkTextEnvelope "# Notes\n\nHello\n[ ] Buy milk"), 2) := by
  rfl

/-- C6 (confirmed): a block whose discriminant is none of the recognized
renderer cases never makes the block loop throw: the generic rich-text
extraction runs, a nonempty extraction is emitted as a plain content line, and
an empty one contributes nothing. -/
theorem C6_unrecognized_block_fallback (b : Block)
    (h : b.type ∉ (["paragraph", "heading_1", "heading_2", "heading_3",
      "bulleted_list_item", "numbered_list_item", "to_do", "code",
      "child_page", "child_database"] : List String)) :
    processBlocks [b]
      = .ok ([], [], if blockText b = "" then [] else [blockText b]) := by
  simp only [List.mem_cons, List.not_mem_nil, or_false, not_or] at h
  obtain ⟨h1, h2, h3, h4, h5, h6, h7, h8, h9, h10⟩ := h
  simp [processBlocks, formatBlock, Except.map,
    h1, h2, h3, h4, h5, h6, h7, h8, h9, h10]

/-- Witness for C6 at a concrete unrecognized block. -/
theorem C6_witness :
    processBlocks [⟨"x", "mystery", some ⟨some [⟨"hi"⟩], none, none⟩⟩]
      = .ok ([], [],
        if blockText ⟨"x", "mystery", some ⟨some [⟨"hi"⟩], none, none⟩⟩ = "" then []
        else [blockText ⟨"x", "mystery", some ⟨some [⟨"hi"⟩], none, none⟩⟩]) :=
  C6_unrecognized_block_fallback ⟨"x", "mystery", some ⟨some [⟨"hi"⟩], none, none⟩⟩
    (by decide)

/-- C10 (confirmed): in the `read_page` block loop a non-child block
contributes a body content line exactly when its formatted string is nonempty;
in particular an empty paragraph is dropped, while an empty to-do still
contributes its checkbox marker line and an empty code block its fences. -/
theorem C10_contribution_iff_nonempty :
    (∀ b : Block, b.type ≠ "child_page" → b.type ≠ "child_database" →
      processBlocks [b]
        = .ok ([], [], if formatBlock b = "" then [] else [formatBlock b]))
    ∧ processBlocks [⟨"b", "paragraph", some ⟨some [], none, none⟩⟩] = .ok ([], [], [])
    ∧ processBlocks [⟨"b", "to_do", some ⟨some [], some false, none⟩⟩]
        = .ok ([], [], ["[ ] "])
    ∧ processBlocks [⟨"b", "to_do", some ⟨some [], some true, none⟩⟩]
        = .ok ([], [], ["[x] "])
    ∧ processBlocks [⟨"b", "code", some ⟨some [], none, none⟩⟩]
        = .ok ([], [], ["```\n\n```"]) := by
  refine ⟨fun b h1 h2 => ?_, rfl, rfl, rfl, rfl⟩
  simp [processBlocks, Except.map, h1, h2]

/-- Witness for C10 at a concrete paragraph block with text. -/
theorem C10_witness :
    processBlocks [⟨"z", "paragraph", some ⟨some [⟨"hey"⟩], none, none⟩⟩]
      = .ok ([], [],
        if formatBlock ⟨"z", "paragraph", some ⟨some [⟨"hey"⟩], none, none⟩⟩ = "" then []
        else [formatBlock ⟨"z", "paragraph", some ⟨some [⟨"hey"⟩], none, none⟩⟩]) :=
  C10_contribution_iff_nonempty.1 ⟨"z", "paragraph", some ⟨some [⟨"hey"⟩], none, none⟩⟩
    (by decide) (by decide)

/-- C8 (confirmed): on a remote response with zero matches, `search_pages`
returns a normal (non-error) single-text envelope whose message embeds the
query; the message contains none of the bullet-marker characters (hence no
bullet result line) whenever the query itself contains none. -/
theorem C8_search_zero_matches (q : String) :
    search_pages (fun _ => .ok []) [("query", ArgVal.s q)]
      = (.ok (mkTextEnvelope (noResultsMsg q)), 1)
    ∧ containsStr (noResultsMsg q) q = true
    ∧ (avoidsChars bulletMarker.toList q = true →
        avoidsChars bulletMarker.toList (noResultsMsg q) = true) := by
  refine ⟨rfl, ?_, ?_⟩
  · show segOccurs q.toList (("No pages found matching \"" ++ q ++ "\"").toList) = true
    rw [strToList_append, strToList_append]
    exact segOccurs_sandwich q.toList _ _
  · intro hq
    have h1 : avoidsChars bulletMarker.toList "No pages found matching \"" = true := by decide
    have h2 : avoidsChars bulletMarker.toList "\"" = true := by decide
    show avoidsChars bulletMarker.toList ("No pages found matching \"" ++ q ++ "\"") = true
    rw [avoidsChars_append, avoidsChars_append, h1, hq, h2]
    rfl

/-- Witness for C8 at the query "roadmap". -/
theorem C8_witness :
    search_pages (fun _ => .ok []) [("query", ArgVal.s "roadmap")]
      = (.ok (mkTextEnvelope (noResultsMsg "roadmap")), 1)
    ∧ containsStr (noResultsMsg "roadmap") "roadmap" = true
    ∧ avoidsChars bulletMarker.toList (noResultsMsg "roadmap") = true := by
  have h := C8_search_zero_matches "roadmap"
  exact ⟨h.1, h.2.1, h.2.2 (by decide)⟩

/-- C4 (confirmed): `formatError`'s classification follows the claimed
priority order — status 404 first (its message carrying the nested detail
message when one is present), then 401, then 400, then a present (truthy)
error code as an "API Error (code)" message, then the failure object's own
message chain, with the fixed generic fallback when no message exists. -/
theorem C4_formatError_priority (e : ErrVal) :
    (e.status = some 404 →
      formatErrorBody e
        = "Resource not found. Please check the provided ID. Details: " ++ detailsOf e)
    ∧ (∀ m, e.bodyMessage = some m → m ≠ "" → detailsOf e = m)
    ∧ (e.status ≠ some 404 → e.status = some 401 →
      formatErrorBody e
        = "Authentication error. Please check your API token. Details: " ++ detailsOf e)
    ∧ (e.status ≠ some 404 → e.status ≠ some 401 → e.status = some 400 →
      formatErrorBody e = "Bad request. Details: " ++ detailsOf e)
    ∧ (e.status ≠ some 404 → e.status ≠ some 401 → e.status ≠ some 400 →
      ∀ c, e.code = some c → c ≠ "" →
      formatErrorBody e = "API Error (" ++ c ++ "): " ++ detailsOf e)
    ∧ (e.status ≠ some 404 → e.status ≠ some 401 → e.status ≠ some 400 →
      jsTruthy e.code = false →
      ((∀ m, e.bodyMessage = some m → m ≠ "" → formatErrorBody e = m)
        ∧ (jsTruthy e.bodyMessage = false →
            ∀ m, e.message = some m → m ≠ "" → formatErrorBody e = m)
        ∧ (jsTruthy e.bodyMessage = false → jsTruthy e.message = false →
            formatErrorBody e = "An unknown error occurred"))) := by
  refine ⟨fun h4 => ?_, fun m hm hne => ?_, fun hn4 h1 => ?_, fun hn4 hn1 h0 => ?_,
    fun hn4 hn1 hn0 c hc hcne => ?_, fun hn4 hn1 hn0 hcode => ⟨fun m hm hne => ?_,
      fun hbm m hm hne => ?_, fun hbm hmm => ?_⟩⟩
  · simp [formatErrorBody, h4]
  · simp [detailsOf, jsOrStr, jsTruthy, hm, interpStr, hne]
  · simp [formatErrorBody, hn4, h1]
  · simp [formatErrorBody, hn4, hn1, h0]
  · simp [formatErrorBody, hn4, hn1, hn0, jsTruthy, hc, hcne, interpStr]
  · simp only [formatErrorBody, hn4, hn1, hn0, hcode, if_false, if_neg]
    simp [hn4, hn1, hn0, jsOrStr, jsTruthy, hm, hne]
  · simp only [formatErrorBody, hn4, hn1, hn0, hcode, if_false, if_neg]
    cases hB : e.bodyMessage with
    | none => simp [hn4, hn1, hn0, jsOrStr, jsTruthy, hB, hm, hne]
    | some bm =>
      rw [hB] at hbm
      simp only [jsTruthy] at hbm
      simp [hn4, hn1, hn0, jsOrStr, jsTruthy, hB, hbm, hm, hne]
  · simp only [formatErrorBody, hn4, hn1, hn0, hcode, if_false, if_neg]
    simp [hn4, hn1, hn0, jsOrStr, hbm, hmm]

/-- Witness for C4: the five classification branches at concrete failure
objects. -/
theorem C4_witness :
    formatErrorBody ⟨some 404, none, some "nope", none⟩
      = "Resource not found. Please check the provided ID. Details: "
        ++ detailsOf ⟨some 404, none, some "nope", none⟩
    ∧ detailsOf ⟨some 404, none, some "nope", none⟩ = "nope"
    ∧ formatErrorBody ⟨some 401, none, none, some "auth"⟩
      = "Authentication error. Please check your API token. Details: "
        ++ detailsOf ⟨some 401, none, none, some "auth"⟩
    ∧ formatErrorBody ⟨some 400, none, none, none⟩
      = "Bad request. Details: " ++ detailsOf ⟨some 400, none, none, none⟩
    ∧ formatErrorBody ⟨none, some "rate_limited", none, some "m"⟩
      = "API Error (" ++ "rate_limited" ++ "): "
        ++ detailsOf ⟨none, some "rate_limited", none, some "m"⟩
    ∧ formatErrorBody ⟨none, none, none, some "own"⟩ = "own"
    ∧ formatErrorBody ⟨none, none, none, none⟩ = "An unknown error occurred" := by
  refine ⟨(C4_formatError_priority _).1 rfl,
    (C4_formatError_priority ⟨some 404, none, some "nope", none⟩).2.1 "nope" rfl (by decide),
    (C4_formatError_priority _).2.2.1 (by decide) rfl,
    (C4_formatError_priority _).2.2.2.1 (by decide) (by decide) rfl,
    (C4_formatError_priority _).2.2.2.2.1 (by decide) (by decide) (by decide)
      "rate_limited" rfl (by decide),
    ((C4_formatError_priority _).2.2.2.2.2 (by decide) (by decide) (by decide)
      (by decide)).2.1 (by decide) "own" rfl (by decide),
    ((C4_formatError_priority _).2.2.2.2.2 (by decide) (by decide) (by decide)
      (by decide)).2.2 (by decide) (by decide)⟩

end NotionServer


namespace NotionServer

/-! ### Envelope-shape helper lemmas for the four handlers -/

theorem search_pages_ok_envelope (f : String → Except ErrVal (List NotionPage))
    (args : JsObj) (env : Envelope) (h : (search_pages f args).1 = .ok env) :
    ∃ s, env = mkTextEnvelope s := by
  unfold search_pages at h
  split at h
  · simp at h
  · split at h
    · simp at h
    · split at h <;> exact ⟨_, (by simpa using h.symm)⟩

theorem read_page_ok_envelope (lb : String → Except ErrVal (List Block))
    (rp : String → Except ErrVal PageResp) (args : JsObj) (env : Envelope)
    (h : (read_page lb rp args).1 = .ok env) : ∃ s, env = mkTextEnvelope s := by
  unfold read_page at h
  split at h
  · simp at h
  · dsimp only at h
    split at h <;> exact ⟨_, (by simpa using h.symm)⟩

theorem query_database_ok_envelope
    (qd : Option ArgVal → Option ArgVal → Option (List ArgVal) → Except ErrVal Json)
    (args : JsObj) (env : Envelope) (h : (query_database qd args).1 = .ok env) :
    ∃ s, env = mkTextEnvelope s := by
  unfold query_database at h
  dsimp only at h
  split at h <;> exact ⟨_, (by simpa using h.symm)⟩

theorem retrieve_database_ok_envelope (rd : Option ArgVal → Except ErrVal Json)
    (args : JsObj) (env : Envelope) (h : (retrieve_database rd args).1 = .ok env) :
    ∃ s, env = mkTextEnvelope s := by
  unfold retrieve_database at h
  split at h <;> exact ⟨_, (by simpa using h.symm)⟩

/-- C7 (confirmed): every envelope any of the four tool handlers returns —
on success or on an absorbed failure — carries exactly one content element,
and that element is a `{type: "text", text: string}` pair. -/
theorem C7_envelope_single_text (R : Remotes) (name : String) (args : JsObj)
    (env : Envelope) (h : (callTool R name args).1 = .ok env) :
    ∃ s, env.content = [⟨"text", s⟩] := by
  unfold callTool at h
  split at h
  · obtain ⟨s, rfl⟩ := search_pages_ok_envelope _ _ _ h
    exact ⟨s, rfl⟩
  · split at h
    · obtain ⟨s, rfl⟩ := read_page_ok_envelope _ _ _ _ h
      exact ⟨s, rfl⟩
    · split at h
      · obtain ⟨s, rfl⟩ := query_database_ok_envelope _ _ _ h
        exact ⟨s, rfl⟩
      · split at h
        · obtain ⟨s, rfl⟩ := retrieve_database_ok_envelope _ _ _ h
          exact ⟨s, rfl⟩
        · simp at h

/-- Witness for C7 at a concrete successful search call. -/
theorem C7_witness :
    ∃ s, (mkTextEnvelope (noResultsMsg "q")).content = [⟨"text", s⟩] :=
  C7_envelope_single_text stubRemotes "search_pages" [("query", ArgVal.s "q")]
    (mkTextEnvelope (noResultsMsg "q")) (by rfl)

end NotionServer

namespace NotionServer

/-- C1 (refuted as stated): `search_pages` does NOT absorb a failing remote
call — with a rejecting search collaborator the dispatched call returns the
thrown remote error to the transport (not a SUCCEEDED-shaped envelope), and
that exception is neither an unknown-tool nor a validation failure. -/
theorem C1_counterexample :
    callTool
      ⟨fun _ => .error ⟨some 404, none, none, some "gone"⟩,
        stubRemotes.listBlocks, stubRemotes.retrievePage,
        stubRemotes.queryDb, stubRemotes.retrieveDb⟩
      "search_pages" [("query", ArgVal.s "roadmap")]
      = (.error (.remote ⟨some 404, none, none, some "gone"⟩), 1) := by
  rfl

/-- C1 (amended): `read_page`, `query_database` and `retrieve_database` absorb
any exception of their remote call or rendering into a SUCCEEDED-shaped
envelope carrying the normalized error text, but `search_pages` does not guard
its remote call: a search rejection propagates to the transport, alongside
unknown-tool and validation failures. -/
theorem C1_amended_absorption (e : ErrVal) (args : JsObj) (q pid : String)
    (rp : String → Except ErrVal PageResp) :
    (parseStringArg args "query" = .ok q →
      search_pages (fun _ => .error e) args = (.error (.remote e), 1))
    ∧ (parseStringArg args "pageId" = .ok pid →
      read_page (fun _ => .error e) rp args
        = (.ok (mkTextEnvelope (formatErrorBody e)), 2))
    ∧ query_database (fun _ _ _ => .error e) args
        = (.ok (mkTextEnvelope ("Error querying database: " ++ formatErrorBody e)), 1)
    ∧ retrieve_database (fun _ => .error e) args
        = (.ok (mkTextEnvelope (formatErrorBody e)), 1) := by
  refine ⟨fun h => ?_, fun h => ?_, rfl, rfl⟩
  · unfold search_pages
    rw [h]
  · unfold read_page
    rw [h]
    rfl

/-- Witness for C1 (amended) at concrete arguments and a concrete failure. -/
theorem C1_amended_witness :
    search_pages (fun _ => .error ⟨some 401, none, none, some "no auth"⟩)
      [("query", ArgVal.s "a"), ("pageId", ArgVal.s "b")]
      = (.error (.remote ⟨some 401, none, none, some "no auth"⟩), 1)
    ∧ read_page (fun _ => .error ⟨some 401, none, none, some "no auth"⟩)
      stubRemotes.retrievePage [("query", ArgVal.s "a"), ("pageId", ArgVal.s "b")]
      = (.ok (mkTextEnvelope
          (formatErrorBody ⟨some 401, none, none, some "no auth"⟩)), 2)
    ∧ query_database (fun _ _ _ => .error ⟨some 401, none, none, some "no auth"⟩)
      [("query", ArgVal.s "a"), ("pageId", ArgVal.s "b")]
      = (.ok (mkTextEnvelope ("Error querying database: "
          ++ formatErrorBody ⟨some 401, none, none, some "no auth"⟩)), 1)
    ∧ retrieve_database (fun _ => .error ⟨some 401, none, none, some "no auth"⟩)
      [("query", ArgVal.s "a"), ("pageId", ArgVal.s "b")]
      = (.ok (mkTextEnvelope
          (formatErrorBody ⟨some 401, none, none, some "no auth"⟩)), 1) := by
  have h := C1_amended_absorption ⟨some 401, none, none, some "no auth"⟩
    [("query", ArgVal.s "a"), ("pageId", ArgVal.s "b")] "a" "b" stubRemotes.retrievePage
  exact ⟨h.1 rfl, h.2.1 rfl, h.2.2.1, h.2.2.2⟩

/-- C2 (refuted as stated): with an empty argument object — `databaseId`
missing — both database handlers still invoke the remote collaborator exactly
once (and return its serialized answer), instead of failing validation with
zero remote calls. -/
theorem C2_counterexample :
    query_database (fun _ _ _ => .ok (Json.obj [])) []
      = (.ok (mkTextEnvelope "\x7b\x7d"), 1)
    ∧ retrieve_database (fun _ => .ok (Json.obj [])) []
      = (.ok (mkTextEnvelope "\x7b\x7d"), 1) :=
  ⟨rfl, rfl⟩

/-- C2 (amended): `search_pages` and `read_page` reject a missing required
argument with a validation error before any remote call (collaborator count
zero), but `query_database` and `retrieve_database` perform no validation:
they always issue their remote call exactly once, `databaseId` present or not. -/
theorem C2_amended_validation (f : String → Except ErrVal (List NotionPage))
    (lb : String → Except ErrVal (List Block)) (rp : String → Except ErrVal PageResp)
    (qd : Option ArgVal → Option ArgVal → Option (List ArgVal) → Except ErrVal Json)
    (rd : Option ArgVal → Except ErrVal Json) (args : JsObj) :
    (lookupArg args "query" = none →
      search_pages f args = (.error (.validation "ZodError: required query"), 0))
    ∧ (lookupArg args "pageId" = none →
      read_page lb rp args = (.error (.validation "ZodError: required pageId"), 0))
    ∧ (query_database qd args).2 = 1
    ∧ (retrieve_database rd args).2 = 1 := by
  refine ⟨fun h => ?_, fun h => ?_, ?_, ?_⟩
  · unfold search_pages parseStringArg
    rw [h]
    rfl
  · unfold read_page parseStringArg
    rw [h]
    rfl
  · unfold query_database
    dsimp only
    split <;> rfl
  · unfold retrieve_database
    split <;> rfl

/-- Witness for C2 (amended) at the empty argument object. -/
theorem C2_amended_witness :
    search_pages stubRemotes.search []
      = (.error (.validation "ZodError: required query"), 0)
    ∧ read_page stubRemotes.listBlocks stubRemotes.retrievePage []
      = (.error (.validation "ZodError: required pageId"), 0)
    ∧ (query_database stubRemotes.queryDb []).2 = 1
    ∧ (retrieve_database stubRemotes.retrieveDb []).2 = 1 := by
  have h := C2_amended_validation stubRemotes.search stubRemotes.listBlocks
    stubRemotes.retrievePage stubRemotes.queryDb stubRemotes.retrieveDb []
  exact ⟨h.1 rfl, h.2.1 rfl, h.2.2.1, h.2.2.2⟩

end NotionServer

namespace NotionServer

/-- `s` starts with `pre` (JS `String.prototype.startsWith`). -/
def startsWithStr (s pre : String) : Bool := pre.toList.isPrefixOf s.toList

/-- C5 (refuted as stated): three concrete divergences from the claimed title
fallback.  (i) The Q3-Roadmap scenario line does not start with a U+2022
bullet — the code's bullet literal is the mojibake sequence `bulletMarker` —
even though the slug-derived title itself is "Q3 Roadmap".  (ii) When the slug
decode throws (here on "100% x"), the property stage is skipped instead of
running: the title is "Untitled" although a "Name" property with text "Real"
exists (the claim model `claimTitleC5` says "Real").  (iii) The property
stage looks up the literal keys "title"/"Name", not the title TYPE: a
title-typed property under the key "Task" is ignored (the claim model says
"Hello"). -/
theorem C5_counterexample :
    (¬ startsWithStr (formatPageLine ⟨"https://www.notion.so/Q3-Roadmap-abc123", []⟩)
        (String.mk [Char.ofNat 0x2022] ++ " Q3 Roadmap") = true)
    ∧ pageTitle ⟨"https://www.notion.so/Q3-Roadmap-abc123", []⟩ = "Q3 Roadmap"
    ∧ pageTitle ⟨"https://n/100%-x-abc", [("Name", ⟨"title", some [⟨"Real"⟩]⟩)]⟩
        = "Untitled"
    ∧ claimTitleC5 ⟨"https://n/100%-x-abc", [("Name", ⟨"title", some [⟨"Real"⟩]⟩)]⟩
        = "Real"
    ∧ pageTitle ⟨"https://n/nomatch", [("Task", ⟨"title", some [⟨"Hello"⟩]⟩)]⟩
        = "Untitled"
    ∧ claimTitleC5 ⟨"https://n/nomatch", [("Task", ⟨"title", some [⟨"Hello"⟩]⟩)]⟩
        = "Hello" := by
  refine ⟨by decide, by decide, by decide, by decide, by decide, by decide⟩

/-- C5 (amended): the displayed title follows the code's two-stage order — a
decoded url slug wins unless it is literally "Untitled"; a decode exception
yields "Untitled" outright (the property stage is skipped); only a missing
match or the decoded placeholder falls back to the property stored under the
key "title" or else "Name" (first text run, when nonempty, else "Untitled").
The Q3-Roadmap scenario line starts with the source's mojibake bullet sequence
followed by " Q3 Roadmap". -/
theorem C5_amended_title_fallback :
    startsWithStr (formatPageLine ⟨"https://www.notion.so/Q3-Roadmap-abc123", []⟩)
        (bulletMarker ++ " Q3 Roadmap") = true
    ∧ pageTitle ⟨"https://www.notion.so/Q3-Roadmap-abc123", []⟩ = "Q3 Roadmap"
    ∧ (∀ (p : NotionPage) (s : String), stageA p.url = .decoded s → s ≠ "Untitled" →
        pageTitle p = s)
    ∧ (∀ p : NotionPage, stageA p.url = .threw → pageTitle p = "Untitled")
    ∧ (∀ p : NotionPage, stageA p.url = .noMatch →
        pageTitle p = (stageBTitle p.properties).getD "Untitled")
    ∧ (∀ p : NotionPage, stageA p.url = .decoded "Untitled" →
        pageTitle p = (stageBTitle p.properties).getD "Untitled") := by
  refine ⟨by decide, by decide, fun p s h hne => ?_, fun p h => ?_, fun p h => ?_,
    fun p h => ?_⟩
  · unfold pageTitle
    rw [h]
    simp [hne]
  · unfold pageTitle
    rw [h]
  · unfold pageTitle
    rw [h]
  · unfold pageTitle
    rw [h]
    simp

/-- Witness for C5 (amended): the slug stage at the scenario page and the
skip-on-throw behavior at a concrete page. -/
theorem C5_amended_witness :
    pageTitle ⟨"https://www.notion.so/Q3-Roadmap-abc123", []⟩ = "Q3 Roadmap"
    ∧ pageTitle ⟨"https://n/100%-x-abc", [("Name", ⟨"title", some [⟨"Real"⟩]⟩)]⟩
        = "Untitled" :=
  ⟨C5_amended_title_fallback.2.2.1 ⟨"https://www.notion.so/Q3-Roadmap-abc123", []⟩
      "Q3 Roadmap" (by decide) (by decide),
    C5_amended_title_fallback.2.2.2.1
      ⟨"https://n/100%-x-abc", [("Name", ⟨"title", some [⟨"Real"⟩]⟩)]⟩ (by decide)⟩

/-- C9 (refuted as stated): on a self-referencing failure object the
diagnostic `JSON.stringify` of `formatError` throws before any classification
happens, so the normalization itself fails instead of returning a string. -/
theorem C9_counterexample :
    formatErrorJs [[("self", JVal.vref 0), ("message", JVal.vstr "boom")]]
      (JVal.vref 0) = .error () := by
  rfl

/-- C9 (amended): the classification stage itself is total, and `formatError`
returns its string whenever the diagnostic serialization succeeds — in
particular on every flat failure object (scalar fields only); but the
serialization is unguarded, so when it throws (circular structure), the whole
normalization fails with it. -/
theorem C9_amended_logging (fs : List (String × JVal))
    (hfs : ∀ kv ∈ fs, isRefJ kv.2 = false) :
    formatErrorJs [fs] (JVal.vref 0)
      = .ok (formatErrorBody (errValOf [fs] (JVal.vref 0)))
    ∧ (∀ (h : JHeap) (v : JVal),
        stringifyJVal h (h.length + 1) [] v = .error () →
        formatErrorJs h v = .error ()) := by
  constructor
  · obtain ⟨parts, hp⟩ := stringifyFieldsWith_ok
      (fun v => stringifyJVal [fs] [fs].length [0] v) fs
      (fun kv hkv => stringifyJVal_scalar [fs] [fs].length [0] kv.2 (hfs kv hkv))
    unfold formatErrorJs
    have hs : stringifyJVal [fs] ([fs].length + 1) [] (JVal.vref 0)
        = .ok ("\x7b" ++ String.intercalate "," parts ++ "\x7d") := by
      simp only [List.length_singleton] at hp
      simp [stringifyJVal, heapFields, hp, Except.map]
    rw [hs]
    rfl
  · intro h v hv
    unfold formatErrorJs
    rw [hv]
    rfl

/-- Witness for C9 (amended) at a concrete flat failure object. -/
theorem C9_amended_witness :
    formatErrorJs [[("status", JVal.vnum 404), ("message", JVal.vstr "gone")]]
      (JVal.vref 0)
      = .ok (formatErrorBody (errValOf
          [[("status", JVal.vnum 404), ("message", JVal.vstr "gone")]]
          (JVal.vref 0))) :=
  (C9_amended_logging [("status", JVal.vnum 404), ("message", JVal.vstr "gone")]
    (by decide)).1

end NotionServer
